import Mathlib

/-!
Shallow embedding of the NetSpeed Pro sampling, aggregation, buffering and
persistence core (netspeed_pro.py, class SmoothNetMonitor).

Conventions of the embedding:
  - Python arbitrary-precision integers are modelled as ℤ (or ℕ for the
    monotone OS counters and for dates/hours).
  - Python float arithmetic on these values is modelled as exact rational
    arithmetic over ℚ; the concrete inputs used in the theorems below keep
    every intermediate value dyadic and far below 2^53, where IEEE double
    arithmetic is exact, so the model and the program agree on them.
  - The Python builtin int() (truncation toward zero) is pyTrunc.
  - Calendar dates are abstracted as natural numbers (equality of dates is
    all the program uses); hours are natural numbers as produced by
    datetime.hour.
  - File I/O is modelled by values: a CSV file is Option (List row), none
    standing for a missing file; a row that the Python loader would fail to
    parse (bad date, bad integer, missing column - any exception inside the
    read loop) is the constructor invalid.  Writes performed by a sampling
    tick are collected in an ordered event list.
-/

/-- Python int() applied to a rational value: truncation toward zero.
On a normalised rational this is the numerator divided by the denominator
with rounding toward zero. -/
def pyTrunc (q : ℚ) : ℤ := q.num.tdiv q.den

/-- pyTrunc is the identity on integers. -/
theorem pyTrunc_intCast (z : ℤ) : pyTrunc (z : ℚ) = z := by
  unfold pyTrunc
  rw [Rat.num_intCast, Rat.den_intCast]
  exact Int.tdiv_one z

/-- A cumulative counter snapshot as returned by psutil.net_io_counters:
total bytes received and sent since interface initialisation. -/
structure NetStats where
  bytes_recv : ℕ
  bytes_sent : ℕ
  deriving DecidableEq

/-- The counter read performed at the top of each iteration of
measure_speeds (lines 805-821): if the selected adapter is "All" the
aggregate counters are used; otherwise the per-interface table is consulted
and, when the adapter is missing (the Python KeyError branch), the
aggregate counters are used as a fallback.  The function is total: no
lookup failure escapes. -/
def read_net_stats (pernic : List (String × NetStats)) (aggregate : NetStats)
    (selected_adapter : String) : NetStats :=
  if selected_adapter = "All" then aggregate
  else
    match List.lookup selected_adapter pernic with
    | some st => st
    | none => aggregate

/-- The aggregator state mutated by the sampling loop: running daily byte
totals, the last seen calendar date, and the hourly table (the defaultdict
hourly_data, modelled as a total function with default (0, 0)). -/
structure MonitorState where
  daily_download_bytes : ℤ
  daily_upload_bytes : ℤ
  last_data_update_day : ℕ
  hourly_data : ℕ → ℤ × ℤ

/-- The empty hourly table: the defaultdict default, 0 bytes in every
bucket. -/
def hourly_empty : ℕ → ℤ × ℤ := fun _ => (0, 0)

/-- hourly_data[h] += (d, u): the in-place accumulation performed by the
sampling loop. -/
def hourly_add (t : ℕ → ℤ × ℤ) (h : ℕ) (d u : ℤ) : ℕ → ℤ × ℤ :=
  fun h2 => if h2 = h then ((t h).1 + d, (t h).2 + u) else t h2

/-- hourly_data[h] = (d, u): the assignment performed by load_hourly_data. -/
def hourly_set (t : ℕ → ℤ × ℤ) (h : ℕ) (d u : ℤ) : ℕ → ℤ × ℤ :=
  fun h2 => if h2 = h then (d, u) else t h2

/-- One row of the daily usage CSV file (Date, DownloadBytes, UploadBytes).
invalid stands for a row on which the Python parser would raise (bad date
string, non-numeric byte field, missing column); the decimal serialisation
of integers and ISO dates is lossless, so valid rows carry their parsed
values directly. -/
inductive DailyRow where
  | valid (date : ℕ) (download_bytes upload_bytes : ℤ)
  | invalid
  deriving DecidableEq

/-- One row of the hourly usage CSV file (Hour, DownloadBytes,
UploadBytes), with the same conventions as DailyRow. -/
inductive HourlyRow where
  | valid (hour : ℕ) (download_bytes upload_bytes : ℤ)
  | invalid
  deriving DecidableEq

/-- save_daily_data (lines 927-940): the file is rewritten with a header
and exactly one row holding last_data_update_day and the current daily
totals. -/
def save_daily_data (s : MonitorState) : List DailyRow :=
  [DailyRow.valid s.last_data_update_day s.daily_download_bytes s.daily_upload_bytes]

/-- save_hourly_data (lines 1080-1095): the file is rewritten with one row
per hour 0..23, reading the (defaultdict) hourly table. -/
def save_hourly_data (s : MonitorState) : List HourlyRow :=
  (List.range 24).map fun h => HourlyRow.valid h (s.hourly_data h).1 (s.hourly_data h).2

/-- A persistence write performed during execution, carrying the file
contents written. -/
inductive PersistEvent where
  | saveDaily (rows : List DailyRow)
  | saveHourly (rows : List HourlyRow)
  deriving DecidableEq

/-- down_kbps and up_kbps as computed by measure_speeds lines 822-823:
the difference of two cumulative counters divided by 1024.  Note that the
program does not divide by the sampling interval. -/
def kbps_delta (old_bytes new_bytes : ℕ) : ℚ :=
  (((new_bytes : ℤ) - (old_bytes : ℤ) : ℤ) : ℚ) / 1024

/-- interval_seconds = update_interval / 1000.0 (line 837); update_interval
is in milliseconds. -/
def interval_seconds (update_interval : ℕ) : ℚ := (update_interval : ℚ) / 1000

/-- download_bytes_interval / upload_bytes_interval (lines 838-839):
int(kbps * 1024 * interval_seconds). -/
def bytes_interval (update_interval : ℕ) (kbps : ℚ) : ℤ :=
  pyTrunc (kbps * 1024 * interval_seconds update_interval)

/-- The outcome of one iteration of the sampling loop: the two rates put on
the queue, the persistence writes performed (in order), and the updated
aggregator state. -/
structure TickResult where
  down_kbps : ℚ
  up_kbps : ℚ
  events : List PersistEvent
  state : MonitorState

/-- One iteration of the measure_speeds loop body (lines 814-849), given
the two counter snapshots and the current date and hour.  In program
order: the two rates are computed from the counter deltas; if the date
changed, save_daily_data writes the previous-day totals, the daily totals
are zeroed, the last seen date is advanced and the hourly table is cleared
(no hourly write happens here); then the interval byte counts are added to
the daily totals and to the current-hour bucket. -/
def measure_speeds_tick (update_interval : ℕ) (old_stats new_stats : NetStats)
    (current_day current_hour : ℕ) (s : MonitorState) : TickResult :=
  let down_kbps := kbps_delta old_stats.bytes_recv new_stats.bytes_recv
  let up_kbps := kbps_delta old_stats.bytes_sent new_stats.bytes_sent
  let events : List PersistEvent :=
    if current_day ≠ s.last_data_update_day then
      [PersistEvent.saveDaily (save_daily_data s)]
    else []
  let s1 : MonitorState :=
    if current_day ≠ s.last_data_update_day then
      { daily_download_bytes := 0, daily_upload_bytes := 0,
        last_data_update_day := current_day, hourly_data := hourly_empty }
    else s
  let download_bytes_interval := bytes_interval update_interval down_kbps
  let upload_bytes_interval := bytes_interval update_interval up_kbps
  { down_kbps := down_kbps
    up_kbps := up_kbps
    events := events
    state :=
      { daily_download_bytes := s1.daily_download_bytes + download_bytes_interval
        daily_upload_bytes := s1.daily_upload_bytes + upload_bytes_interval
        last_data_update_day := s1.last_data_update_day
        hourly_data :=
          hourly_add s1.hourly_data current_hour download_bytes_interval upload_bytes_interval } }

/-- A run of consecutive sampling iterations on a fixed date and hour, each
given its pair of consecutive counter snapshots. -/
def run_ticks (update_interval : ℕ) (current_day current_hour : ℕ)
    (s : MonitorState) : List (NetStats × NetStats) → MonitorState
  | [] => s
  | (old_stats, new_stats) :: rest =>
      run_ticks update_interval current_day current_hour
        (measure_speeds_tick update_interval old_stats new_stats current_day current_hour s).state
        rest

/-- The row scan inside load_daily_data (lines 908-917): rows are read in
order; a valid row dated today stops the scan and yields its date and
totals (the early return); a row that fails to parse raises, aborting the
scan with no result (the exception is caught outside the loop); reaching
the end of the file with no match also yields no result.  Both failure
modes continue identically in load_daily_data, so they share the none
outcome. -/
def load_daily_scan (today : ℕ) : List DailyRow → Option (ℕ × ℤ × ℤ)
  | [] => none
  | DailyRow.valid d dl ul :: rest =>
      if d = today then some (d, dl, ul) else load_daily_scan today rest
  | DailyRow.invalid :: _ => none

/-- The row loop of load_hourly_data (lines 1068-1076): each valid row
assigns its byte counts to its hour bucket; a row that fails to parse
raises, stopping the loop but keeping the assignments already made. -/
def apply_hourly_rows (t : ℕ → ℤ × ℤ) : List HourlyRow → (ℕ → ℤ × ℤ)
  | [] => t
  | HourlyRow.valid h dl ul :: rest => apply_hourly_rows (hourly_set t h dl ul) rest
  | HourlyRow.invalid :: _ => t

/-- load_hourly_data (lines 1064-1077): if the hourly file is missing the
table is left untouched; otherwise its rows are applied in order. -/
def load_hourly_data (hourly_file : Option (List HourlyRow)) (t : ℕ → ℤ × ℤ) :
    ℕ → ℤ × ℤ :=
  match hourly_file with
  | none => t
  | some rows => apply_hourly_rows t rows

/-- load_daily_data (lines 905-924): if the daily file exists and the scan
finds a valid row dated today, the daily totals and last seen date are set
from it and the function returns at once (the hourly file is not read on
this path).  Otherwise - missing file, parse failure, or no row for today -
the totals are zeroed, the last seen date is set to today, the hourly table
is cleared and then load_hourly_data is run on the cleared table. -/
def load_daily_data (daily_file : Option (List DailyRow))
    (hourly_file : Option (List HourlyRow)) (today : ℕ) (s : MonitorState) :
    MonitorState :=
  match daily_file with
  | some rows =>
      match load_daily_scan today rows with
      | some (d, dl, ul) =>
          { s with daily_download_bytes := dl, daily_upload_bytes := ul,
                   last_data_update_day := d }
      | none =>
          { daily_download_bytes := 0, daily_upload_bytes := 0,
            last_data_update_day := today,
            hourly_data := load_hourly_data hourly_file hourly_empty }
  | none =>
      { daily_download_bytes := 0, daily_upload_bytes := 0,
        last_data_update_day := today,
        hourly_data := load_hourly_data hourly_file hourly_empty }

/-- The aggregator state right after setup_variables (lines 110-115): zero
daily totals, an empty hourly table, and the startup date (abstracted here
as day 0). -/
def setup_state : MonitorState :=
  { daily_download_bytes := 0, daily_upload_bytes := 0,
    last_data_update_day := 0, hourly_data := hourly_empty }

/-- collections.deque(maxlen) append: below capacity the element is added
at the right; at capacity the leftmost (oldest) element is evicted first.
This models download_data / upload_data, created with maxlen=50 (lines
81-82) and appended to in update_labels (lines 872-873). -/
def deque_append (maxlen : ℕ) (xs : List ℚ) (x : ℚ) : List ℚ :=
  if xs.length < maxlen then xs ++ [x] else xs.tail ++ [x]

/-- A sequence of deque appends, as performed when update_labels drains the
queued samples in arrival order. -/
def deque_append_all (maxlen : ℕ) (xs : List ℚ) : List ℚ → List ℚ
  | [] => xs
  | a :: as => deque_append_all maxlen (deque_append maxlen xs a) as

/-- The widget state touched by set_adapter: the selected adapter name and
the two rate buffers. -/
structure AdapterState where
  selected_adapter : String
  download_data : List ℚ
  upload_data : List ℚ

/-- set_adapter (lines 611-614): store the new adapter name and clear both
rate buffers. -/
def set_adapter (s : AdapterState) (value : String) : AdapterState :=
  { selected_adapter := value, download_data := [], upload_data := [] }

/-- C6: on a sampling tick whose selected adapter name is not present in
the per-interface counter table, the sampler reads the aggregate of all
adapters instead; read_net_stats is total, so no error is raised and
sampling continues. -/
theorem read_net_stats_missing_adapter_fallback
    (pernic : List (String × NetStats)) (aggregate : NetStats)
    (selected_adapter : String)
    (h : List.lookup selected_adapter pernic = none) :
    read_net_stats pernic aggregate selected_adapter = aggregate := by
  unfold read_net_stats
  split
  · rfl
  · rw [h]

/-- C6 witness: adapter "wlan0" absent from a table holding only "eth0";
the read yields the aggregate counters. -/
theorem read_net_stats_missing_adapter_fallback_witness :
    List.lookup "wlan0" [("eth0", NetStats.mk 10 20)] = none ∧
      read_net_stats [("eth0", NetStats.mk 10 20)] (NetStats.mk 3 4) "wlan0" =
        NetStats.mk 3 4 := by
  refine ⟨by decide, ?_⟩
  exact read_net_stats_missing_adapter_fallback _ _ _ (by decide)

/-- C9: selecting a different adapter via set_adapter clears both rate
buffers, so no sample recorded under the previous adapter remains in
either buffer afterwards. -/
theorem set_adapter_clears_buffers (s : AdapterState) (value : String)
    (h : value ≠ s.selected_adapter) :
    (set_adapter s value).download_data = [] ∧
      (set_adapter s value).upload_data = [] ∧
      (∀ x ∈ s.download_data, x ∉ (set_adapter s value).download_data) ∧
      (∀ x ∈ s.upload_data, x ∉ (set_adapter s value).upload_data) ∧
      (set_adapter s value).selected_adapter = value := by
  refine ⟨rfl, rfl, ?_, ?_, rfl⟩ <;> intro x _hx <;> simp [set_adapter]

/-- C9 witness: switching from "All" to "eth0" with two buffered samples;
both buffers are empty afterwards and the old sample 7 is gone. -/
theorem set_adapter_clears_buffers_witness :
    "eth0" ≠ "All" ∧
      (set_adapter (AdapterState.mk "All" [7, 2] [3]) "eth0").download_data = [] ∧
      (7 : ℚ) ∉ (set_adapter (AdapterState.mk "All" [7, 2] [3]) "eth0").download_data := by
  have h := set_adapter_clears_buffers (AdapterState.mk "All" [7, 2] [3]) "eth0" (by decide)
  exact ⟨by decide, h.1, h.2.2.1 7 (by simp)⟩

/-- C8: saving the current daily record with save_daily_data and then
loading with load_daily_data on the same day yields exactly the download
and upload totals that were saved. -/
theorem save_load_daily_round_trip (s : MonitorState)
    (hourly_file : Option (List HourlyRow)) (today : ℕ) (s0 : MonitorState)
    (h : s.last_data_update_day = today) :
    (load_daily_data (some (save_daily_data s)) hourly_file today s0).daily_download_bytes =
        s.daily_download_bytes ∧
      (load_daily_data (some (save_daily_data s)) hourly_file today s0).daily_upload_bytes =
        s.daily_upload_bytes ∧
      (load_daily_data (some (save_daily_data s)) hourly_file today s0).last_data_update_day =
        today := by
  simp [load_daily_data, save_daily_data, load_daily_scan, h]

/-- C8 witness: totals (1234, 567) saved on day 42 and reloaded on day 42
come back unchanged. -/
theorem save_load_daily_round_trip_witness :
    (MonitorState.mk 1234 567 42 hourly_empty).last_data_update_day = 42 ∧
      (load_daily_data (some (save_daily_data (MonitorState.mk 1234 567 42 hourly_empty)))
          none 42 setup_state).daily_download_bytes = 1234 ∧
      (load_daily_data (some (save_daily_data (MonitorState.mk 1234 567 42 hourly_empty)))
          none 42 setup_state).daily_upload_bytes = 567 := by
  have h := save_load_daily_round_trip (MonitorState.mk 1234 567 42 hourly_empty)
    none 42 setup_state rfl
  exact ⟨rfl, h.1, h.2.1⟩

/-- C10: when the daily file holds a row dated today (reached before any
unparsable row), the loader sets the daily totals and date from that row
and changes nothing else - in particular the hourly usage file is never
read, whatever it contains, and an initially all-zero in-memory hourly
table stays all-zero even when a saved hourly file exists on disk. -/
theorem load_daily_today_skips_hourly_file (rows : List DailyRow)
    (hourly_file : Option (List HourlyRow)) (today d : ℕ) (dl ul : ℤ)
    (s : MonitorState)
    (h : load_daily_scan today rows = some (d, dl, ul)) :
    load_daily_data (some rows) hourly_file today s =
        { s with daily_download_bytes := dl, daily_upload_bytes := ul,
                 last_data_update_day := d } ∧
      ((∀ h2, s.hourly_data h2 = (0, 0)) →
        ∀ h2, (load_daily_data (some rows) hourly_file today s).hourly_data h2 = (0, 0)) := by
  constructor
  · simp [load_daily_data, h]
  · intro hz h2
    simp [load_daily_data, h]
    exact hz h2

/-- C10 witness: the daily file has a row for day 42 and a nonzero hourly
file exists on disk; after loading, the totals come from the daily row and
the in-memory hourly table is still zero. -/
theorem load_daily_today_skips_hourly_file_witness :
    load_daily_scan 42 [DailyRow.valid 42 11 22] = some (42, 11, 22) ∧
      (load_daily_data (some [DailyRow.valid 42 11 22])
          (some [HourlyRow.valid 0 999 998]) 42 setup_state).hourly_data 0 = (0, 0) := by
  have h := load_daily_today_skips_hourly_file [DailyRow.valid 42 11 22]
    (some [HourlyRow.valid 0 999 998]) 42 42 11 22 setup_state (by decide)
  exact ⟨by decide, h.2 (fun _ => rfl) 0⟩

/-- C7 counterexample: the daily usage file is missing, yet after loading,
the hourly table is not zero - the zero path of load_daily_data reloads
the hourly table from the hourly usage file (here holding 777 download
bytes for hour 3), contradicting the claim that a missing file leaves the
hourly table initialized to zero. -/
theorem load_daily_missing_file_hourly_not_zero :
    (load_daily_data none (some [HourlyRow.valid 3 777 888]) 0 setup_state).daily_download_bytes
        = 0 ∧
      (load_daily_data none (some [HourlyRow.valid 3 777 888]) 0 setup_state).hourly_data 3
        = (777, 888) ∧
      ¬ (load_daily_data none (some [HourlyRow.valid 3 777 888]) 0 setup_state).hourly_data 3
        = (0, 0) := by
  refine ⟨rfl, rfl, ?_⟩
  intro h
  simpa [load_daily_data, load_hourly_data, apply_hourly_rows, hourly_set] using h

/-- C7 amended: on load, a missing daily file, an unparsable row, or no
record dated today zeroes both daily totals and sets the last seen date to
today (the absent outcome); the hourly table is cleared and then reloaded
from the hourly usage file, so it is all zero exactly when that file is
also missing. -/
theorem load_daily_no_prior_data (daily_file : Option (List DailyRow))
    (hourly_file : Option (List HourlyRow)) (today : ℕ) (s : MonitorState)
    (h : daily_file = none ∨
      ∃ rows, daily_file = some rows ∧ load_daily_scan today rows = none) :
    (load_daily_data daily_file hourly_file today s).daily_download_bytes = 0 ∧
      (load_daily_data daily_file hourly_file today s).daily_upload_bytes = 0 ∧
      (load_daily_data daily_file hourly_file today s).last_data_update_day = today ∧
      (load_daily_data daily_file hourly_file today s).hourly_data =
        load_hourly_data hourly_file hourly_empty ∧
      (hourly_file = none →
        ∀ h2, (load_daily_data daily_file hourly_file today s).hourly_data h2 = (0, 0)) := by
  rcases h with h | ⟨rows, hrows, hscan⟩
  · subst h
    refine ⟨rfl, rfl, rfl, rfl, ?_⟩
    intro hnone h2
    subst hnone
    rfl
  · subst hrows
    refine ⟨?_, ?_, ?_, ?_, ?_⟩ <;> simp [load_daily_data, hscan]
    intro hnone h2
    subst hnone
    rfl

/-- C7 witness: both files missing on day 7 - totals zero, date set to 7,
hourly bucket 5 zero. -/
theorem load_daily_no_prior_data_witness :
    (load_daily_data none none 7 setup_state).daily_download_bytes = 0 ∧
      (load_daily_data none none 7 setup_state).daily_upload_bytes = 0 ∧
      (load_daily_data none none 7 setup_state).last_data_update_day = 7 ∧
      (load_daily_data none none 7 setup_state).hourly_data 5 = (0, 0) := by
  have h := load_daily_no_prior_data none none 7 setup_state (Or.inl rfl)
  exact ⟨h.1, h.2.1, h.2.2.1, h.2.2.2.2 rfl 5⟩

/-- One deque append keeps the length within a positive capacity. -/
theorem deque_append_length_le (maxlen : ℕ) (hm : 1 ≤ maxlen) (xs : List ℚ)
    (x : ℚ) (h : xs.length ≤ maxlen) :
    (deque_append maxlen xs x).length ≤ maxlen := by
  unfold deque_append
  split
  · simp only [List.length_append, List.length_singleton]
    omega
  · simp only [List.length_append, List.length_tail, List.length_singleton]
    omega

/-- Any sequence of deque appends keeps the length within a positive
capacity. -/
theorem deque_append_all_length_le (maxlen : ℕ) (hm : 1 ≤ maxlen) :
    ∀ (samples xs : List ℚ), xs.length ≤ maxlen →
      (deque_append_all maxlen xs samples).length ≤ maxlen := by
  intro samples
  induction samples with
  | nil => intro xs h; exact h
  | cons a as ih =>
      intro xs h
      exact ih _ (deque_append_length_le maxlen hm xs a h)

/-- A sequence of deque appends onto a buffer within capacity keeps the
suffix of the concatenation that fits: FIFO ring-buffer semantics. -/
theorem deque_append_all_eq_drop (maxlen : ℕ) (hm : 1 ≤ maxlen) :
    ∀ (samples xs : List ℚ), xs.length ≤ maxlen →
      deque_append_all maxlen xs samples =
        (xs ++ samples).drop (xs.length + samples.length - maxlen) := by
  intro samples
  induction samples with
  | nil =>
      intro xs h
      simp only [deque_append_all, List.append_nil, List.length_nil, Nat.add_zero]
      rw [show xs.length - maxlen = 0 by omega, List.drop_zero]
  | cons a as ih =>
      intro xs h
      show deque_append_all maxlen (deque_append maxlen xs a) as = _
      unfold deque_append
      split
      · rename_i hlt
        rw [ih (xs ++ [a]) (by simp; omega)]
        rw [List.append_assoc, List.singleton_append]
        congr 1
        simp
        omega
      · rename_i hge
        have hlen : xs.length = maxlen := by omega
        match xs, h, hge, hlen with
        | [], _, _, hlen => simp at hlen; omega
        | y :: ys, _, _, hlen =>
            simp only [List.tail_cons]
            rw [ih (ys ++ [a]) (by simp at hlen ⊢; omega)]
            rw [List.append_assoc, List.singleton_append]
            rw [show (ys ++ [a]).length + as.length - maxlen = as.length by
              simp at hlen ⊢; omega]
            rw [show (y :: ys).length + (a :: as).length - maxlen = as.length + 1 by
              simp at hlen ⊢; omega]
            rw [show (y :: ys) ++ a :: as = y :: (ys ++ a :: as) from rfl]
            rw [List.drop_succ_cons]

/-- C5: the rate buffer (deque with maxlen 50) never holds more than 50
samples, and after pushing a sequence of 51 samples onto an empty buffer
the oldest sample is gone and exactly the 50 most recent samples remain in
insertion order. -/
theorem rate_buffer_fifo_capacity (a : ℚ) (rest pushes : List ℚ)
    (hlen : rest.length = 50) (hmem : a ∉ rest) :
    (deque_append_all 50 [] pushes).length ≤ 50 ∧
      deque_append_all 50 [] (a :: rest) = rest ∧
      a ∉ deque_append_all 50 [] (a :: rest) := by
  have hcap : (1 : ℕ) ≤ 50 := by omega
  have hdrop := deque_append_all_eq_drop 50 hcap (a :: rest) [] (by simp)
  have heq : deque_append_all 50 [] (a :: rest) = rest := by
    rw [hdrop]
    simp [hlen]
  refine ⟨deque_append_all_length_le 50 hcap pushes [] (by simp), heq, ?_⟩
  rw [heq]
  exact hmem

/-- C5 witness: 51 pushes (the sample 1 followed by fifty 0 samples) onto
the empty buffer leave exactly the fifty 0 samples; the oldest sample 1 is
absent; any push sequence keeps the length at most 50. -/
theorem rate_buffer_fifo_capacity_witness :
    (List.replicate 50 (0 : ℚ)).length = 50 ∧
      deque_append_all 50 [] ((1 : ℚ) :: List.replicate 50 0) = List.replicate 50 0 ∧
      (1 : ℚ) ∉ deque_append_all 50 [] ((1 : ℚ) :: List.replicate 50 0) := by
  have h := rate_buffer_fifo_capacity 1 (List.replicate 50 0) []
    (by simp) (by simp [List.mem_replicate])
  exact ⟨by simp, h.2.1, h.2.2⟩

/-- Evaluation helper: bytes_interval is the truncation of the exact
product, so whenever the product is an integer the truncation vanishes. -/
theorem bytes_interval_eq (update_interval : ℕ) (kbps : ℚ) (z : ℤ)
    (h : kbps * 1024 * interval_seconds update_interval = (z : ℚ)) :
    bytes_interval update_interval kbps = z := by
  unfold bytes_interval
  rw [h, pyTrunc_intCast]

/-- At the default 1000 ms interval the accumulated interval bytes equal
the raw counter delta exactly. -/
theorem bytes_interval_1000_kbps (o n : ℕ) :
    bytes_interval 1000 (kbps_delta o n) = (n : ℤ) - (o : ℤ) := by
  apply bytes_interval_eq
  unfold kbps_delta interval_seconds
  push_cast
  field_simp

/-- A tick with equal snapshots contributes zero bytes. -/
theorem bytes_interval_of_equal (update_interval : ℕ) (b : ℕ) :
    bytes_interval update_interval (kbps_delta b b) = 0 := by
  apply bytes_interval_eq
  unfold kbps_delta interval_seconds
  push_cast
  ring

/-- Recogniser for hourly persistence writes. -/
def is_save_hourly : PersistEvent → Bool
  | PersistEvent.saveHourly _ => true
  | PersistEvent.saveDaily _ => false

/-- C1 counterexample: a rollover tick (day 6 after day 5) on a state whose
hourly table holds (10, 20) bytes at hour 2.  The tick performs exactly one
persistence write - the daily file with the previous-day totals - and no
hourly write at all, yet the hourly table is cleared: the previous-day
hourly data is discarded without being persisted, contradicting the claim
that the full hourly table is persisted on rollover. -/
theorem rollover_does_not_persist_hourly_table :
    (measure_speeds_tick 1000 (NetStats.mk 0 0) (NetStats.mk 0 0) 6 3
        (MonitorState.mk 100 50 5 (hourly_set hourly_empty 2 10 20))).events =
      [PersistEvent.saveDaily [DailyRow.valid 5 100 50]] ∧
    List.filter is_save_hourly
        (measure_speeds_tick 1000 (NetStats.mk 0 0) (NetStats.mk 0 0) 6 3
          (MonitorState.mk 100 50 5 (hourly_set hourly_empty 2 10 20))).events = [] ∧
    (MonitorState.mk 100 50 5 (hourly_set hourly_empty 2 10 20)).hourly_data 2 = (10, 20) ∧
    (measure_speeds_tick 1000 (NetStats.mk 0 0) (NetStats.mk 0 0) 6 3
        (MonitorState.mk 100 50 5 (hourly_set hourly_empty 2 10 20))).state.hourly_data 2 =
      (0, 0) := by
  have h6 : (6 : ℕ) ≠ 5 := by decide
  refine ⟨?_, ?_, ?_, ?_⟩
  · simp [measure_speeds_tick, save_daily_data]
  · simp [measure_speeds_tick, save_daily_data, is_save_hourly]
  · simp [hourly_set, hourly_empty]
  · simp [measure_speeds_tick, hourly_add, hourly_empty,
      bytes_interval_of_equal]

/-- C1 amended: on a tick whose date differs from the last seen date, the
program performs exactly one persistence write - the daily file holding
the previous-day totals - then resets the daily totals and clears the
hourly table without persisting it, and only afterwards accumulates the
new-day interval bytes: the resulting totals consist of the new interval
bytes alone, and every hourly bucket other than the current hour is
zero. -/
theorem measure_speeds_rollover_order (update_interval : ℕ)
    (old_stats new_stats : NetStats) (current_day current_hour : ℕ)
    (s : MonitorState) (h : current_day ≠ s.last_data_update_day) :
    (measure_speeds_tick update_interval old_stats new_stats current_day current_hour s).events =
        [PersistEvent.saveDaily
          [DailyRow.valid s.last_data_update_day s.daily_download_bytes s.daily_upload_bytes]] ∧
      (measure_speeds_tick update_interval old_stats new_stats current_day current_hour s).state.daily_download_bytes =
        bytes_interval update_interval (kbps_delta old_stats.bytes_recv new_stats.bytes_recv) ∧
      (measure_speeds_tick update_interval old_stats new_stats current_day current_hour s).state.daily_upload_bytes =
        bytes_interval update_interval (kbps_delta old_stats.bytes_sent new_stats.bytes_sent) ∧
      (measure_speeds_tick update_interval old_stats new_stats current_day current_hour s).state.last_data_update_day =
        current_day ∧
      (measure_speeds_tick update_interval old_stats new_stats current_day current_hour s).state.hourly_data
          current_hour =
        (bytes_interval update_interval (kbps_delta old_stats.bytes_recv new_stats.bytes_recv),
          bytes_interval update_interval (kbps_delta old_stats.bytes_sent new_stats.bytes_sent)) ∧
      (∀ h2, h2 ≠ current_hour →
        (measure_speeds_tick update_interval old_stats new_stats current_day current_hour s).state.hourly_data
          h2 = (0, 0)) := by
  refine ⟨?_, ?_, ?_, ?_, ?_, ?_⟩
  · simp [measure_speeds_tick, save_daily_data, h]
  · simp [measure_speeds_tick, h]
  · simp [measure_speeds_tick, h]
  · simp [measure_speeds_tick, h]
  · simp [measure_speeds_tick, h, hourly_add, hourly_empty]
  · intro h2 hne
    simp [measure_speeds_tick, h, hourly_add, hourly_empty, hne]

/-- C1 witness: totals (4096, 2048) accumulated for day 5; the first tick
on day 6 writes exactly the daily row for day 5 and advances the date. -/
theorem measure_speeds_rollover_order_witness :
    (6 : ℕ) ≠ (MonitorState.mk 4096 2048 5 hourly_empty).last_data_update_day ∧
      (measure_speeds_tick 1000 (NetStats.mk 0 0) (NetStats.mk 0 0) 6 0
          (MonitorState.mk 4096 2048 5 hourly_empty)).events =
        [PersistEvent.saveDaily [DailyRow.valid 5 4096 2048]] ∧
      (measure_speeds_tick 1000 (NetStats.mk 0 0) (NetStats.mk 0 0) 6 0
          (MonitorState.mk 4096 2048 5 hourly_empty)).state.last_data_update_day = 6 := by
  have h := measure_speeds_rollover_order 1000 (NetStats.mk 0 0) (NetStats.mk 0 0) 6 0
    (MonitorState.mk 4096 2048 5 hourly_empty) (by decide)
  exact ⟨by decide, h.1, h.2.2.2.1⟩

/-- C2 counterexample: a counter reset (cumulative counters drop from
(1024, 2048) to (0, 0)) on a 1000 ms tick produces the rate -1 KB - a
negative rate - and adds -1024 bytes to the daily download total: nothing
clamps the negative delta to zero. -/
theorem counter_reset_rate_is_negative :
    (measure_speeds_tick 1000 (NetStats.mk 1024 2048) (NetStats.mk 0 0) 0 0
        setup_state).down_kbps = -1 ∧
      (measure_speeds_tick 1000 (NetStats.mk 1024 2048) (NetStats.mk 0 0) 0 0
        setup_state).down_kbps < 0 ∧
      (measure_speeds_tick 1000 (NetStats.mk 1024 2048) (NetStats.mk 0 0) 0 0
        setup_state).state.daily_download_bytes = -1024 ∧
      (measure_speeds_tick 1000 (NetStats.mk 1024 2048) (NetStats.mk 0 0) 0 0
        setup_state).state.daily_download_bytes < 0 := by
  have hk : kbps_delta 1024 0 = -1 := by
    unfold kbps_delta
    norm_num
  have hb : bytes_interval 1000 (kbps_delta 1024 0) = -1024 := by
    rw [bytes_interval_1000_kbps]
    norm_num
  refine ⟨?_, ?_, ?_, ?_⟩
  · simp [measure_speeds_tick, setup_state, hk]
  · simp [measure_speeds_tick, setup_state, hk]
  · simp [measure_speeds_tick, setup_state, hb]
  · simp [measure_speeds_tick, setup_state, hb]

/-- C2 amended: when the new cumulative byte count is smaller than the old
one (counter wraparound or adapter reset), the computed delta is NOT
clamped: the rate equals (new - old) / 1024, which is strictly negative,
and on a same-day tick this negative interval byte count is added to the
daily download total unchanged. -/
theorem measure_speeds_counter_reset_not_clamped (update_interval : ℕ)
    (old_stats new_stats : NetStats) (current_day current_hour : ℕ)
    (s : MonitorState)
    (hlt : new_stats.bytes_recv < old_stats.bytes_recv)
    (hday : current_day = s.last_data_update_day) :
    (measure_speeds_tick update_interval old_stats new_stats current_day current_hour s).down_kbps =
        kbps_delta old_stats.bytes_recv new_stats.bytes_recv ∧
      (measure_speeds_tick update_interval old_stats new_stats current_day current_hour s).down_kbps
        < 0 ∧
      (measure_speeds_tick update_interval old_stats new_stats current_day current_hour s).state.daily_download_bytes =
        s.daily_download_bytes +
          bytes_interval update_interval (kbps_delta old_stats.bytes_recv new_stats.bytes_recv) := by
  have hneg : kbps_delta old_stats.bytes_recv new_stats.bytes_recv < 0 := by
    unfold kbps_delta
    apply div_neg_of_neg_of_pos
    · have hz : ((new_stats.bytes_recv : ℤ) - (old_stats.bytes_recv : ℤ)) < 0 := by omega
      exact_mod_cast hz
    · norm_num
  refine ⟨?_, ?_, ?_⟩
  · simp [measure_speeds_tick]
  · simpa [measure_speeds_tick] using hneg
  · simp [measure_speeds_tick, hday]

/-- C2 witness: the concrete counter reset from 1024 received bytes to 0
satisfies the hypotheses, and the produced rate is negative. -/
theorem measure_speeds_counter_reset_not_clamped_witness :
    (NetStats.mk 0 0).bytes_recv < (NetStats.mk 1024 2048).bytes_recv ∧
      (0 : ℕ) = setup_state.last_data_update_day ∧
      (measure_speeds_tick 1000 (NetStats.mk 1024 2048) (NetStats.mk 0 0) 0 0
        setup_state).down_kbps < 0 := by
  have h := measure_speeds_counter_reset_not_clamped 1000 (NetStats.mk 1024 2048)
    (NetStats.mk 0 0) 0 0 setup_state (by decide) rfl
  exact ⟨by decide, rfl, h.2.1⟩

/-- C3: the claim is refuted at the configurable interval 2000 ms: for a
counter delta of 2048 bytes over one 2000 ms tick, the program computes
down_kbps = 2048 / 1024 = 2, whereas the claimed formula
(new - old) / 1024 / intervalSeconds gives 1.  The code never divides by
the sampling interval, so the value it reports as KB/s is actually KB per
interval; the two coincide only at the default 1000 ms interval. -/
theorem rate_formula_ignores_interval :
    (measure_speeds_tick 2000 (NetStats.mk 0 0) (NetStats.mk 2048 0) 0 0
        setup_state).down_kbps = 2 ∧
      ((2048 : ℚ) - 0) / 1024 / interval_seconds 2000 = 1 ∧
      (2 : ℚ) ≠ 1 := by
  refine ⟨?_, ?_, by norm_num⟩
  · simp only [measure_speeds_tick]
    unfold kbps_delta
    norm_num
  · unfold interval_seconds
    norm_num

/-- C4: the claim is refuted at the configurable interval 500 ms: a
single-tick day whose counter delta sums to B = 1000 bytes leaves the
daily download total at int(1000 * 0.5) = 500 bytes, not 1000.  The
accumulated bytes are scaled by interval_seconds because the per-interval
delta was never converted to a per-second rate; the total equals B only at
the default 1000 ms interval. -/
theorem daily_accumulation_scaled_by_interval :
    (run_ticks 500 0 0 setup_state
        [(NetStats.mk 0 0, NetStats.mk 1000 0)]).daily_download_bytes = 500 ∧
      ((1000 : ℤ) - 0) = 1000 ∧
      (500 : ℤ) ≠ 1000 := by
  have hb : bytes_interval 500 (kbps_delta 0 1000) = 500 := by
    apply bytes_interval_eq
    unfold kbps_delta interval_seconds
    push_cast
    norm_num
  refine ⟨?_, by norm_num, by norm_num⟩
  simp [run_ticks, measure_speeds_tick, setup_state, hb]
